import Mathlib

/-
  Verification of the castari-proxy worker (src/worker/src/logger.ts and
  src/worker/src/index.ts) against its natural-language specification.

  The embedding models JavaScript runtime values that flow through the
  reassembler as a `Json` inductive, and embeds the SSE reassembly state
  machine, the tee, the log writer, and the request-handling dispatch of
  index.ts as executable Lean functions.  Strings are processed as
  `List Char` so that all definitions reduce in the kernel.
-/

set_option maxRecDepth 40000

/-- JSON values as produced by `JSON.parse`.  Numbers are modelled as
integers: the wire format exercised here (token counts, block indices)
only carries integer numerals. -/
inductive Json where
  | null
  | bool (b : Bool)
  | num (n : Int)
  | str (s : String)
  | arr (xs : List Json)
  | obj (kvs : List (String × Json))

/-- Whether a JSON value is `null` (JavaScript nullish once parsed:
`undefined` is modelled by `Option.none` at use sites). -/
def Json.isNull : Json → Bool
  | .null => true
  | _ => false

/-- Property lookup on a parsed JSON object.  `JSON.parse` assigns
duplicate keys in order, so the last occurrence wins. -/
def lookupKV : List (String × Json) → String → Option Json
  | [], _ => none
  | (k, v) :: rest, key =>
    match lookupKV rest key with
    | some r => some r
    | none => if k = key then some v else none

/-- Safe property access `o?.k`: `none` models `undefined` (missing key,
or access on a non-object / nullish value through optional chaining). -/
def jsGetSafe : Json → String → Option Json
  | .obj kvs, k => lookupKV kvs k
  | _, _ => none

/-- JavaScript truthiness of a (possibly undefined) value. -/
def jsTruthyV : Json → Bool
  | .null => false
  | .bool b => b
  | .num n => n != 0
  | .str s => s != ""
  | .arr _ => true
  | .obj _ => true

def jsTruthyO : Option Json → Bool
  | none => false
  | some j => jsTruthyV j

/-- Nullish coalescing `v ?? old` where `none` models `undefined`. -/
def nullishD (v : Option Json) (old : Json) : Json :=
  match v with
  | some j => if j.isNull then old else j
  | none => old

/-- Coerces an optional JSON value to a string as the accumulator's
string buffers do with `x ?? ''`: the wire fields involved
(`text`, `partial_json`, `id`, `name`) are strings in the protocol, and
nullish/absent values become the empty string. -/
def strFromD (v : Option Json) : String :=
  match v with
  | some (.str s) => s
  | _ => ""

/-! ### JSON parser (embedding of `JSON.parse` for the wire subset)

Numbers are restricted to optionally-signed integer numerals; `\uXXXX`
escapes are not accepted.  The audit wire format exercised by the
claims stays inside this subset. -/

def jsonWs (c : Char) : Bool :=
  c = ' ' || c = '\n' || c = '\t' || c = '\r'

def skipWs (cs : List Char) : List Char :=
  cs.dropWhile jsonWs

def isDigitCh (c : Char) : Bool :=
  '0' ≤ c && c ≤ '9'

def digitsToNat (ds : List Char) : Nat :=
  ds.foldl (fun acc c => acc * 10 + (c.toNat - 48)) 0

def escMap (c : Char) : Option Char :=
  if c = '"' then some '"'
  else if c = '\\' then some '\\'
  else if c = '/' then some '/'
  else if c = 'b' then some '\x08'
  else if c = 'f' then some '\x0c'
  else if c = 'n' then some '\n'
  else if c = 'r' then some '\r'
  else if c = 't' then some '\t'
  else none

/-- Parses the body of a JSON string literal after the opening quote,
returning the decoded characters and the remainder after the closing
quote.  Unescaped control characters are rejected as in `JSON.parse`. -/
def parseStrBody : List Char → Option (List Char × List Char)
  | [] => none
  | c :: rest =>
    if c = '"' then some ([], rest)
    else if c = '\\' then
      match rest with
      | [] => none
      | e :: rest2 =>
        match escMap e with
        | none => none
        | some ec =>
          match parseStrBody rest2 with
          | some (cs, r) => some (ec :: cs, r)
          | none => none
    else if c.toNat < 32 then none
    else
      match parseStrBody rest with
      | some (cs, r) => some (c :: cs, r)
      | none => none

/-- Parses an integer numeral (optional minus sign, no leading zeros). -/
def parseNum (cs : List Char) : Option (Int × List Char) :=
  match cs with
  | '-' :: rest =>
    match parseNumNat rest with
    | some (n, r) => some (-(n : Int), r)
    | none => none
  | _ =>
    match parseNumNat cs with
    | some (n, r) => some ((n : Int), r)
    | none => none
where
  parseNumNat (cs : List Char) : Option (Nat × List Char) :=
    let ds := cs.takeWhile isDigitCh
    let rest := cs.dropWhile isDigitCh
    match ds with
    | [] => none
    | ['0'] => some (0, rest)
    | '0' :: _ :: _ => none
    | _ => some (digitsToNat ds, rest)

/-- Parse request kind: a JSON value, the elements of a non-empty
array after `[`, or the members of a non-empty object after `{`.
Folding the three mutually recursive parsers of a recursive-descent
JSON parser into one function keeps the recursion structural on the
fuel, so the parser reduces definitionally. -/
inductive PReq where
  | val
  | elems
  | members

/-- Recursive-descent JSON parser.  The fuel bounds the recursion
depth; every recursive call consumes at least one character, so
`length + 2` fuel at the top level never runs out.  `.elems` returns
`Json.arr`, `.members` returns `Json.obj`. -/
def parseF : Nat → PReq → List Char → Option (Json × List Char)
  | 0, _, _ => none
  | fuel + 1, .val, cs0 =>
    match skipWs cs0 with
    | [] => none
    | c :: cs =>
      if c = '"' then
        match parseStrBody cs with
        | some (b, r) => some (.str (String.mk b), r)
        | none => none
      else if c = '[' then
        match skipWs cs with
        | ']' :: r => some (.arr [], r)
        | _ => parseF fuel .elems cs
      else if c = '{' then
        match skipWs cs with
        | '}' :: r => some (.obj [], r)
        | _ => parseF fuel .members cs
      else if c = 'n' then
        match cs with
        | 'u' :: 'l' :: 'l' :: r => some (.null, r)
        | _ => none
      else if c = 't' then
        match cs with
        | 'r' :: 'u' :: 'e' :: r => some (.bool true, r)
        | _ => none
      else if c = 'f' then
        match cs with
        | 'a' :: 'l' :: 's' :: 'e' :: r => some (.bool false, r)
        | _ => none
      else if c = '-' || isDigitCh c then
        match parseNum (c :: cs) with
        | some (n, r) => some (.num n, r)
        | none => none
      else none
  | fuel + 1, .elems, cs =>
    match parseF fuel .val cs with
    | none => none
    | some (v, r) =>
      match skipWs r with
      | ',' :: r2 =>
        match parseF fuel .elems r2 with
        | some (.arr vs, rr) => some (.arr (v :: vs), rr)
        | _ => none
      | ']' :: r2 => some (.arr [v], r2)
      | _ => none
  | fuel + 1, .members, cs =>
    match skipWs cs with
    | '"' :: r =>
      match parseStrBody r with
      | none => none
      | some (k, r2) =>
        match skipWs r2 with
        | ':' :: r3 =>
          match parseF fuel .val r3 with
          | none => none
          | some (v, r4) =>
            match skipWs r4 with
            | ',' :: r5 =>
              match parseF fuel .members r5 with
              | some (.obj ms, rr) => some (.obj ((String.mk k, v) :: ms), rr)
              | _ => none
            | '}' :: r5 => some (.obj [(String.mk k, v)], r5)
            | _ => none
        | _ => none
    | _ => none

/-- Embedding of `JSON.parse`: parses a complete JSON document,
rejecting trailing garbage. -/
def Json.parse (cs : List Char) : Option Json :=
  match parseF (cs.length + 2) .val cs with
  | some (j, r) => if skipWs r = [] then some j else none
  | none => none

/-! ### Reassembler state machine (`logger.ts`, `reassembleFromSSE`) -/

/-- Content block accumulator (`BlockState` in `logger.ts`): either a
growing text block or a tool-use block with a raw JSON argument buffer. -/
inductive BlockState where
  | text (t : String)
  | toolUse (id name inputBuffer : String)

/-- A finalized content block of the reassembled `AnthropicResponse`. -/
inductive AnthropicContent where
  | text (t : String)
  | toolUse (id name : String) (input : Json)

/-- Token usage counters captured from a `message_delta` event.  Each
field is the raw JSON value of the corresponding property, `none` when
the property is absent. -/
structure UsageAcc where
  input_tokens : Option Json
  output_tokens : Option Json
  reasoning_tokens : Option Json

/-- The reassembled response (`AnthropicResponse` as built by
`reassembleFromSSE`).  `id`, `model` and `stop_reason` carry the raw
JSON values captured from the stream.  `content` mirrors a JavaScript
array that may contain holes (`none`) at sparsely-created indices. -/
structure AnthropicResponse where
  id : Json
  type : String
  role : String
  model : Json
  stop_reason : Option Json
  stop_sequence : Json
  content : List (Option AnthropicContent)
  usage : Option UsageAcc

/-- The mutable accumulator of `reassembleFromSSE`: message id, model,
stop reason, usage, and the sparse block array. -/
structure SSEAcc where
  messageId : Json
  model : Json
  stopReason : Option Json
  usage : Option UsageAcc
  blocks : List (Option BlockState)

def initAcc : SSEAcc :=
  { messageId := .str "", model := .str "", stopReason := none,
    usage := none, blocks := [] }

/-- Element read `blocks[i]` on the sparse block array. -/
def getBlock (bs : List (Option BlockState)) (i : Nat) : Option BlockState :=
  bs.getD i none

/-- Element write `blocks[i] = v` on the sparse block array: writing past
the end pads with holes, as JavaScript array assignment does. -/
def setBlock (bs : List (Option BlockState)) (i : Nat) (v : BlockState) :
    List (Option BlockState) :=
  if i < bs.length then bs.set i (some v)
  else bs ++ List.replicate (i - bs.length) none ++ [some v]

/-- Extracts `data.index` as an array index: a non-negative integer
numeral.  Other values address non-element properties of the JavaScript
array, which the final `blocks.map` never visits; such events are
modelled as leaving the element array unchanged. -/
def getIndex (data : Json) : Option Nat :=
  match jsGetSafe data "index" with
  | some (.num n) => if 0 ≤ n then some n.toNat else none
  | _ => none

/-- One step of the `switch` in `processRawEvent`, already dispatched on
the resolved event key.  Returns `none` when the JavaScript code would
throw (property access on a `null` event payload), which aborts the
read loop. -/
def dispatchEvent (eventType : String) (data : Json) (acc : SSEAcc) : Option SSEAcc :=
  let key : Option String :=
    if eventType ≠ "" then some eventType
    else
      match jsGetSafe data "type" with
      | some (.str s) => some s
      | _ => none
  match key with
  | some "message_start" =>
    if data.isNull then none
    else
      match jsGetSafe data "message" with
      | some m =>
        if jsTruthyV m then
          some { acc with
            messageId := nullishD (jsGetSafe m "id") acc.messageId,
            model := nullishD (jsGetSafe m "model") acc.model }
        else some acc
      | none => some acc
  | some "content_block_start" =>
    if data.isNull then none
    else
      let block := jsGetSafe data "content_block"
      match block.bind (jsGetSafe · "type") with
      | some (.str bt) =>
        if bt = "text" then
          match getIndex data with
          | some i =>
            some { acc with
              blocks := setBlock acc.blocks i
                (.text (strFromD (block.bind (jsGetSafe · "text")))) }
          | none => some acc
        else if bt = "tool_use" then
          match getIndex data with
          | some i =>
            some { acc with
              blocks := setBlock acc.blocks i
                (.toolUse (strFromD (block.bind (jsGetSafe · "id")))
                  (strFromD (block.bind (jsGetSafe · "name"))) "") }
          | none => some acc
        else some acc
      | _ => some acc
  | some "content_block_delta" =>
    if data.isNull then none
    else
      match jsGetSafe data "delta" with
      | some d =>
        if jsTruthyV d then
          match getIndex data with
          | some i =>
            match getBlock acc.blocks i with
            | some (.text t) =>
              match jsGetSafe d "type" with
              | some (.str "text_delta") =>
                some { acc with
                  blocks := setBlock acc.blocks i
                    (.text (t ++ strFromD (jsGetSafe d "text"))) }
              | _ => some acc
            | some (.toolUse bid bname buf) =>
              match jsGetSafe d "type" with
              | some (.str "input_json_delta") =>
                some { acc with
                  blocks := setBlock acc.blocks i
                    (.toolUse bid bname (buf ++ strFromD (jsGetSafe d "partial_json"))) }
              | _ => some acc
            | none => some acc
          | none => some acc
        else some acc
      | none => some acc
  | some "content_block_stop" => some acc
  | some "message_delta" =>
    if data.isNull then none
    else
      let deltaO := jsGetSafe data "delta"
      let srO := deltaO.bind (jsGetSafe · "stop_reason")
      let acc1 := if jsTruthyO srO then { acc with stopReason := srO } else acc
      let du := deltaO.bind (jsGetSafe · "usage")
      let uO : Option Json :=
        match du with
        | some j => if j.isNull then jsGetSafe data "usage" else some j
        | none => jsGetSafe data "usage"
      if jsTruthyO uO then
        match uO with
        | some u =>
          some { acc1 with
            usage := some
              { input_tokens := jsGetSafe u "input_tokens",
                output_tokens := jsGetSafe u "output_tokens",
                reasoning_tokens := jsGetSafe u "reasoning_tokens" } }
        | none => some acc1
      else some acc1
  | some "message_stop" =>
    if data.isNull then none
    else
      let srO := jsGetSafe data "stop_reason"
      if jsTruthyO srO then some { acc with stopReason := srO } else some acc
  | _ => some acc

/-- JavaScript `String.prototype.trim` over the whitespace the SSE
framing can produce. -/
def jsWsCh (c : Char) : Bool :=
  c = ' ' || c = '\t' || c = '\n' || c = '\r' || c = '\x0b' || c = '\x0c'

def jsTrim (cs : List Char) : List Char :=
  ((cs.dropWhile jsWsCh).reverse.dropWhile jsWsCh).reverse

/-- Splits a character list at a separator character (JavaScript
`split('\n')`). -/
def splitCh (sep : Char) : List Char → List (List Char)
  | [] => [[]]
  | c :: rest =>
    if c = sep then [] :: splitCh sep rest
    else
      match splitCh sep rest with
      | e :: es => (c :: e) :: es
      | [] => [[c]]

/-- Splits at every non-overlapping occurrence of `"\n\n"`, left to
right, returning all parts; the last part is the unconsumed remainder.
This matches the repeated `indexOf('\n\n')`/`slice` loop of
`reassembleFromSSE`. -/
def splitNN : List Char → List (List Char)
  | [] => [[]]
  | '\n' :: '\n' :: rest => [] :: splitNN rest
  | c :: rest =>
    match splitNN rest with
    | e :: es => (c :: e) :: es
    | [] => [[c]]

/-- Line scan of `processRawEvent`: the last `event:` line and the last
`data:` line win, each sliced past its prefix and trimmed. -/
def extractEventData : List (List Char) → List Char × List Char → List Char × List Char
  | [], acc => acc
  | line :: rest, (et, ds) =>
    if ("event:".data).isPrefixOf line then
      extractEventData rest (jsTrim (line.drop 6), ds)
    else if ("data:".data).isPrefixOf line then
      extractEventData rest (et, jsTrim (line.drop 5))
    else
      extractEventData rest (et, ds)

/-- `processRawEvent` of `logger.ts`: skips blank and comment events,
extracts the `event:`/`data:` fields, ignores empty and `[DONE]` data,
skips unparseable JSON, and otherwise dispatches on the event key.
`none` models a thrown exception. -/
def processRawEvent (raw : List Char) (acc : SSEAcc) : Option SSEAcc :=
  if raw = [] || raw.headD ' ' = ':' then some acc
  else
    let (etChars, dsChars) := extractEventData (splitCh '\n' raw) ([], [])
    if dsChars = [] || dsChars = "[DONE]".data then some acc
    else
      match Json.parse dsChars with
      | none => some acc
      | some data => dispatchEvent (String.mk etChars) data acc

/-- Processes a list of complete raw events in order; the Boolean marks
that an event threw, aborting the stream-reading loop. -/
def processEvents : SSEAcc → List (List Char) → SSEAcc × Bool
  | acc, [] => (acc, false)
  | acc, e :: rest =>
    match processRawEvent (jsTrim e) acc with
    | none => (acc, true)
    | some acc2 => processEvents acc2 rest

/-- The chunk-reading loop of `reassembleFromSSE`.  A chunk is either
delivered text (`Except.ok`) or a read error (`Except.error`), which —
like a thrown event — stops processing and keeps whatever was
accumulated.  Text left in the buffer without a terminating blank line
is discarded, as in the source. -/
def runChunks : SSEAcc → List Char → List (Except Unit String) → SSEAcc
  | acc, _, [] => acc
  | acc, _, (Except.error _) :: _ => acc
  | acc, buf, (Except.ok c) :: rest =>
    match processEvents acc (splitNN (buf ++ c.data)).dropLast with
    | (acc2, true) => acc2
    | (acc2, false) => runChunks acc2 ((splitNN (buf ++ c.data)).getLastD []) rest

/-- `safeParseJson` of `logger.ts`: the empty buffer becomes the empty
object, valid JSON parses, and anything else is returned as the raw
string. -/
def safeParseJson (value : String) : Json :=
  if value = "" then .obj []
  else
    match Json.parse value.data with
    | some j => j
    | none => .str value

/-- Builds the final content array from the accumulated blocks
(`blocks.map` over the possibly-sparse array; holes survive as holes). -/
def buildContent (bs : List (Option BlockState)) : List (Option AnthropicContent) :=
  bs.map (Option.map fun b =>
    match b with
    | .text t => .text t
    | .toolUse i n buf => .toolUse i n (safeParseJson buf))

/-- The response construction at the end of `reassembleFromSSE`.
`genId` stands for `randomId('msg')` — ID generation lives in the
excluded `utils.ts` collaborator, so its non-determinism is exposed as
a parameter. -/
def buildResp (genId : String) (acc : SSEAcc) : AnthropicResponse :=
  { id := if jsTruthyV acc.messageId then acc.messageId else .str genId,
    type := "message",
    role := "assistant",
    model := acc.model,
    stop_reason := acc.stopReason,
    stop_sequence := .null,
    content := buildContent acc.blocks,
    usage := acc.usage }

/-- `reassembleFromSSE` of `logger.ts` over a chunked SSE stream. -/
def reassembleFromSSE (genId : String) (chunks : List (Except Unit String)) :
    AnthropicResponse :=
  buildResp genId (runChunks initAcc [] chunks)

/-- `emptyResponse` of `logger.ts` (used when a teed response has no
body). -/
def emptyResponse (genId : String) : AnthropicResponse :=
  { id := .str genId,
    type := "message",
    role := "assistant",
    model := .str "",
    stop_reason := none,
    stop_sequence := .null,
    content := [],
    usage := none }

/-! ### Stream tee (`logger.ts`, `teeAndCollectStream`) -/

/-- A response as it flows through the worker: a status and an optional
chunked byte stream.  A chunk is either delivered text or a read
error. -/
structure ResponseM where
  status : Nat
  body : Option (List (Except Unit String))

/-- Result of tee-ing a streaming response for logging
(`TeeResult` in `logger.ts`).  The promise of the reassembled response
is collapsed to its resolved value: `reassembleFromSSE` is total, so
the promise always resolves. -/
structure TeeResult where
  clientResponse : ResponseM
  collected : AnthropicResponse

/-- `teeAndCollectStream`: a body-less response is passed through with
an empty reassembled response; otherwise `body.tee()` gives both
branches the identical chunk sequence — the client branch is wrapped in
a response with the source's status, and the log branch feeds the
reassembler. -/
def teeAndCollectStream (genId : String) (response : ResponseM) : TeeResult :=
  match response.body with
  | none => { clientResponse := response, collected := emptyResponse genId }
  | some chunks =>
    { clientResponse := { status := response.status, body := some chunks },
      collected := reassembleFromSSE genId chunks }

/-! ### Log entry plumbing (`logger.ts`) -/

/-- The provider enumeration (`types.ts`). -/
inductive Provider where
  | anthropic
  | openrouter
  | vllm
  | sglang

/-- The audit log entry (`LogEntry` in `logger.ts`).  The request body
and client metadata are opaque JSON; `latencyMs` is wall-clock data and
is carried as an uninterpreted number. -/
structure LogEntryM where
  requestId : String
  sessionId : String
  turnIndex : Nat
  timestamp : String
  provider : Provider
  originalModel : String
  wireModel : String
  request : Json
  response : Option AnthropicResponse
  error : Option (Nat × String)
  latencyMs : Nat
  streaming : Bool

/-- A message of the request body, as far as turn derivation needs it. -/
structure AnthropicMessage where
  role : String
  content : Json

/-- `deriveTurnIndex` of `logger.ts`: counts assistant messages. -/
def deriveTurnIndex (messages : List AnthropicMessage) : Nat :=
  messages.foldl (fun count msg => if msg.role = "assistant" then count + 1 else count) 0

/-- `buildLogKey` of `logger.ts`:
`logs/{YYYY-MM-DD}/{sessionId}/{turnIndex}_{requestId}.json`. -/
def buildLogKey (entry : LogEntryM) : String :=
  "logs/" ++ entry.timestamp.take 10 ++ "/" ++ entry.sessionId ++ "/"
    ++ toString entry.turnIndex ++ "_" ++ entry.requestId ++ ".json"

/-- `writeLogEntry` of `logger.ts`.  The R2 bucket's `put` is an
arbitrary effect that may fail (throw or reject), modelled as a
function into `Except`; `serialize` stands for `JSON.stringify`, which
cannot fail on the plain-data `LogEntry`.  The body runs inside
`try/catch`, so any failure of `put` is swallowed. -/
def writeLogEntry (put : String → String → Except String Unit)
    (serialize : LogEntryM → String) (entry : LogEntryM) : Except String Unit :=
  match put (buildLogKey entry) (serialize entry) with
  | _ => Except.ok ()

/-! ### Worker request dispatch (`index.ts`) -/

/-- An upstream HTTP response as seen by the worker. -/
structure UpstreamResp where
  status : Nat
  body : Option (List (Except Unit String))

/-- `Response.ok`: status in the 2xx range. -/
def statusOk (s : Nat) : Bool :=
  decide (200 ≤ s ∧ s < 300)

/-- `await response.text()`: concatenates the chunks, the empty string
for a missing body, and rejects if any chunk read fails. -/
def textOf : Option (List (Except Unit String)) → Except Unit String
  | none => Except.ok ""
  | some chunks =>
    chunks.foldl
      (fun acc c =>
        match acc, c with
        | Except.ok s, Except.ok t => Except.ok (s ++ t)
        | Except.ok _, Except.error e => Except.error e
        | Except.error e, _ => Except.error e)
      (Except.ok "")

/-- Modelled from the spec: the error taxonomy of `errors.ts` (not under
`src/`).  `invalidRequest` carries a message and a structured detail
payload; `readFailure` stands for any other exception reaching the
top-level catch (rejected body reads, JSON syntax errors). -/
inductive ProxyError where
  | invalidRequest (msg : String) (detail : Json)
  | readFailure

/-- The fallback body `JSON.stringify({ error: 'Anthropic upstream error' })`. -/
def anthErrFallback : String :=
  "\x7b\"error\":\"Anthropic upstream error\"\x7d"

/-- `proxyAnthropic` of `index.ts`: 2xx responses pass through
untouched; other statuses are rebuilt from the upstream text (or the
fallback body when empty) with the upstream status. -/
def proxyAnthropic (up : UpstreamResp) : Except Unit ResponseM :=
  if statusOk up.status then Except.ok { status := up.status, body := up.body }
  else
    match textOf up.body with
    | Except.error e => Except.error e
    | Except.ok text =>
      Except.ok
        { status := up.status,
          body := some [Except.ok (if text = "" then anthErrFallback else text)] }

/-- One audit record as scheduled by `scheduleLog` in `index.ts`.
Identity fields (ids, models, request body) are ambient per-request
constants and `latencyMs` is wall-clock data, so the model keeps the
fields the control flow decides: the response payload, the streaming
flag, and the error information. -/
structure ScheduledLog where
  response : Option AnthropicResponse
  streaming : Bool
  error : Option (Nat × String)

/-- The shared non-streaming/streaming response flow of
`handleOpenAICompatible` and `handleOpenRouter` plus the surrounding
logging in `fetch` (the two functions differ only in request
construction and headers, which the audited control flow does not
depend on).  `mapResp` stands for `mapOpenRouterResponse` (in the
missing `translator.ts`), `renderResp` for `JSON.stringify` of the
translated body, and `transcode` for `streamOpenRouterToAnthropic` (in
the missing `stream.ts`); the audited claims hold for every choice of
these collaborators.  `resp.clone().json()` of the just-serialized
translated body yields that same body back, and is modelled directly by
the value. -/
def handleCompat (streamFlag : Bool) (up : UpstreamResp) (genId : String)
    (mapResp : Json → AnthropicResponse) (renderResp : AnthropicResponse → String)
    (transcode : UpstreamResp → ResponseM) (providerName : String) :
    Except ProxyError (ResponseM × List ScheduledLog) :=
  if streamFlag then
    if statusOk up.status then
      let tr := teeAndCollectStream genId (transcode up)
      Except.ok (tr.clientResponse,
        [{ response := some tr.collected, streaming := true, error := none }])
    else
      match textOf up.body with
      | Except.error _ => Except.error .readFailure
      | Except.ok payload =>
        Except.error (.invalidRequest (providerName ++ " streaming error")
          (.obj [("status", .num (up.status : Int)), ("body", .str payload)]))
  else
    match textOf up.body with
    | Except.error _ => Except.error .readFailure
    | Except.ok t =>
      match Json.parse t.data with
      | none => Except.error .readFailure
      | some j =>
        if statusOk up.status then
          let responseBody := mapResp j
          Except.ok ({ status := 200, body := some [Except.ok (renderResp responseBody)] },
            [{ response := some responseBody, streaming := false, error := none }])
        else
          Except.error (.invalidRequest (providerName ++ " error")
            (.obj [("status", .num (up.status : Int)), ("body", j)]))

/-- The per-provider response/logging flow of `fetch` in `index.ts`,
after resolution, auth and policy checks.  The Anthropic branch ignores
the request's streaming flag entirely: every 2xx response is teed
through the reassembler and logged with `streaming := true`, while
non-2xx responses are returned as built by `proxyAnthropic` and logged
as error records.  The other three providers share `handleCompat`. -/
def workerFetch (p : Provider) (streamFlag : Bool) (up : UpstreamResp)
    (genId : String) (mapResp : Json → AnthropicResponse)
    (renderResp : AnthropicResponse → String) (transcode : UpstreamResp → ResponseM) :
    Except ProxyError (ResponseM × List ScheduledLog) :=
  match p with
  | .anthropic =>
    match proxyAnthropic up with
    | Except.error _ => Except.error .readFailure
    | Except.ok resp =>
      if statusOk resp.status then
        let tr := teeAndCollectStream genId resp
        Except.ok (tr.clientResponse,
          [{ response := some tr.collected, streaming := true, error := none }])
      else
        match textOf resp.body with
        | Except.error _ => Except.error .readFailure
        | Except.ok errorText =>
          Except.ok (resp,
            [{ response := none, streaming := false,
               error := some (resp.status, errorText.take 1000) }])
  | .openrouter => handleCompat streamFlag up genId mapResp renderResp transcode "OpenRouter"
  | .vllm => handleCompat streamFlag up genId mapResp renderResp transcode "vllm"
  | .sglang => handleCompat streamFlag up genId mapResp renderResp transcode "sglang"

/-- Modelled from the spec: the top-level error-to-HTTP mapping of
`errors.ts` (not under `src/`) — an invalid-request error is surfaced
as a client-visible 4xx with a structured detail payload, other
exceptions as a 5xx. -/
def errorResponse : ProxyError → ResponseM
  | .invalidRequest msg _ =>
    { status := 400, body := some [Except.ok ("invalid_request: " ++ msg)] }
  | .readFailure => { status := 500, body := some [Except.ok "internal error"] }

/-- `fetch` with its top-level `try/catch`: a thrown error becomes the
translated error response, and no audit record has been scheduled. -/
def workerFetchTop (p : Provider) (streamFlag : Bool) (up : UpstreamResp)
    (genId : String) (mapResp : Json → AnthropicResponse)
    (renderResp : AnthropicResponse → String) (transcode : UpstreamResp → ResponseM) :
    ResponseM × List ScheduledLog :=
  match workerFetch p streamFlag up genId mapResp renderResp transcode with
  | Except.ok r => r
  | Except.error e => (errorResponse e, [])

/-! ### Concrete SSE event streams used by the claims -/

/-- The SSE sequence of claim C1: `message_start(id=msg_test,
model=claude-3)`, a text `content_block_start` at index 0, two text
deltas, `content_block_stop`, a `message_delta` with stop reason
`end_turn` and usage `{input:10, output:5}`, and `message_stop`. -/
def c1Chunk : String :=
  "event: message_start\ndata: \x7b\"type\":\"message_start\",\"message\":\x7b\"id\":\"msg_test\",\"model\":\"claude-3\"\x7d\x7d\n\n"
  ++ "event: content_block_start\ndata: \x7b\"type\":\"content_block_start\",\"index\":0,\"content_block\":\x7b\"type\":\"text\",\"text\":\"\"\x7d\x7d\n\n"
  ++ "event: content_block_delta\ndata: \x7b\"type\":\"content_block_delta\",\"index\":0,\"delta\":\x7b\"type\":\"text_delta\",\"text\":\"Hello \"\x7d\x7d\n\n"
  ++ "event: content_block_delta\ndata: \x7b\"type\":\"content_block_delta\",\"index\":0,\"delta\":\x7b\"type\":\"text_delta\",\"text\":\"world!\"\x7d\x7d\n\n"
  ++ "event: content_block_stop\ndata: \x7b\"type\":\"content_block_stop\",\"index\":0\x7d\n\n"
  ++ "event: message_delta\ndata: \x7b\"type\":\"message_delta\",\"delta\":\x7b\"stop_reason\":\"end_turn\",\"stop_sequence\":null\x7d,\"usage\":\x7b\"input_tokens\":10,\"output_tokens\":5\x7d\x7d\n\n"
  ++ "event: message_stop\ndata: \x7b\"type\":\"message_stop\"\x7d\n\n"

/-- Claim C1: reassembling the SSE sequence of `c1Chunk` yields a
response with id `msg_test`, model `claude-3`, exactly one text block
`"Hello world!"`, stop reason `end_turn`, and usage
`{input_tokens: 10, output_tokens: 5}`. -/
theorem reassembleFromSSE_example_sequence :
    reassembleFromSSE "msg_gen" [Except.ok c1Chunk] =
      { id := .str "msg_test",
        type := "message",
        role := "assistant",
        model := .str "claude-3",
        stop_reason := some (.str "end_turn"),
        stop_sequence := .null,
        content := [some (.text "Hello world!")],
        usage := some { input_tokens := some (.num 10), output_tokens := some (.num 5),
                        reasoning_tokens := none } } := by
  rfl

/-- Claim C2: for every response with a non-null body, the client-facing
branch of `teeAndCollectStream` carries exactly the source stream's
chunks unmodified and the source response's status, independent of the
reassembly performed on the logging branch. -/
theorem teeAndCollectStream_client_branch_unmodified (genId : String) (resp : ResponseM)
    (chunks : List (Except Unit String)) (h : resp.body = some chunks) :
    (teeAndCollectStream genId resp).clientResponse.status = resp.status ∧
      (teeAndCollectStream genId resp).clientResponse.body = some chunks := by
  simp [teeAndCollectStream, h]

theorem teeAndCollectStream_client_branch_unmodified_witness :
    (teeAndCollectStream "g" ⟨200, some [Except.ok "data: x\n\n"]⟩).clientResponse.status = 200 ∧
      (teeAndCollectStream "g" ⟨200, some [Except.ok "data: x\n\n"]⟩).clientResponse.body =
        some [Except.ok "data: x\n\n"] :=
  teeAndCollectStream_client_branch_unmodified "g" ⟨200, some [Except.ok "data: x\n\n"]⟩
    [Except.ok "data: x\n\n"] rfl

/-- Claim C3: `writeLogEntry` never fails, whatever the bucket's `put`
does — the try/catch swallows every failure. -/
theorem writeLogEntry_never_fails (put : String → String → Except String Unit)
    (serialize : LogEntryM → String) (entry : LogEntryM) :
    writeLogEntry put serialize entry = Except.ok () := by
  unfold writeLogEntry
  cases put (buildLogKey entry) (serialize entry) <;> rfl

/-- Claim C7: the derived turn index equals the number of messages with
the assistant role; the empty sequence and user-only sequences yield 0. -/
theorem deriveTurnIndex_counts_assistant :
    (∀ msgs : List AnthropicMessage,
        deriveTurnIndex msgs = msgs.countP (fun m => m.role == "assistant")) ∧
      deriveTurnIndex [] = 0 ∧
      (∀ msgs : List AnthropicMessage,
        (∀ m ∈ msgs, m.role = "user") → deriveTurnIndex msgs = 0) := by
  have go : ∀ (msgs : List AnthropicMessage) (n : Nat),
      msgs.foldl (fun count msg => if msg.role = "assistant" then count + 1 else count) n =
        n + msgs.countP (fun m => m.role == "assistant") := by
    intro msgs
    induction msgs with
    | nil => intro n; simp
    | cons m rest ih =>
      intro n
      simp only [List.foldl, List.countP_cons]
      by_cases hm : m.role = "assistant"
      · simp only [if_pos hm, ih]
        simp [hm]
        omega
      · simp only [if_neg hm, ih]
        simp [hm]
  refine ⟨fun msgs => ?_, rfl, fun msgs h => ?_⟩
  · simpa using go msgs 0
  · have : msgs.countP (fun m => m.role == "assistant") = 0 := by
      rw [List.countP_eq_zero]
      intro m hm
      simp [h m hm]
    simpa [this] using go msgs 0

theorem deriveTurnIndex_counts_assistant_witness :
    deriveTurnIndex [⟨"user", .null⟩, ⟨"user", .null⟩] = 0 :=
  deriveTurnIndex_counts_assistant.2.2 [⟨"user", .null⟩, ⟨"user", .null⟩]
    (by intro m hm; fin_cases hm <;> rfl)

/-- Claim C8: a read error on the underlying stream truncates
reassembly: the result is exactly the reassembly of the chunks
delivered before the failure (and, the function being total, the
collected promise always resolves). -/
theorem reassembleFromSSE_read_error_truncates (genId : String) (goods : List String)
    (rest : List (Except Unit String)) :
    reassembleFromSSE genId (goods.map Except.ok ++ Except.error () :: rest) =
      reassembleFromSSE genId (goods.map Except.ok) := by
  have go : ∀ (gs : List String) (acc : SSEAcc) (buf : List Char),
      runChunks acc buf (gs.map Except.ok ++ Except.error () :: rest) =
        runChunks acc buf (gs.map Except.ok) := by
    intro gs
    induction gs with
    | nil => intro acc buf; rfl
    | cons c cs ih =>
      intro acc buf
      simp only [List.map_cons, List.cons_append, runChunks]
      rcases hpe : processEvents acc (splitNN (buf ++ c.data)).dropLast with ⟨acc2, ab⟩
      cases ab <;> simp [ih]
  unfold reassembleFromSSE
  rw [go]

/-- Claim C9: on completion, a tool-use block's argument buffer becomes
the block's input via `safeParseJson`: valid JSON parses to its value,
invalid JSON falls back to the raw buffered string without erroring,
the empty buffer becomes the empty object, and the spec's example
buffer parses to the expected object. -/
theorem safeParseJson_behavior :
    (∀ (s : String) (j : Json), Json.parse s.data = some j → safeParseJson s = j) ∧
      (∀ s : String, s ≠ "" → Json.parse s.data = none → safeParseJson s = .str s) ∧
      safeParseJson "" = .obj [] ∧
      (∀ i n buf, buildContent [some (.toolUse i n buf)] =
        [some (.toolUse i n (safeParseJson buf))]) ∧
      safeParseJson "\x7b\"query\":\"hello\"\x7d" = .obj [("query", .str "hello")] := by
  refine ⟨fun s j h => ?_, fun s hs h => ?_, rfl, fun i n buf => rfl, rfl⟩
  · by_cases hs : s = ""
    · subst hs
      have : Json.parse ("" : String).data = none := rfl
      rw [this] at h
      exact Option.noConfusion h
    · simp [safeParseJson, hs, h]
  · simp [safeParseJson, hs, h]

theorem safeParseJson_behavior_witness :
    safeParseJson "not json" = .str "not json" ∧
      safeParseJson "\x7b\"query\":\"hello\"\x7d" = .obj [("query", .str "hello")] :=
  ⟨safeParseJson_behavior.2.1 "not json" (by decide) rfl,
    safeParseJson_behavior.1 "\x7b\"query\":\"hello\"\x7d" (.obj [("query", .str "hello")]) rfl⟩

/-- Claim C10: the reassembler is deterministic — two runs over the
same chunk sequence agree on every field once the id is masked out,
and agree on the id as well whenever the source events carried a
(truthy) message id, the only case in which no id is generated. -/
theorem reassembleFromSSE_deterministic (chunks : List (Except Unit String)) (g1 g2 : String) :
    ({ reassembleFromSSE g1 chunks with id := Json.null } =
        { reassembleFromSSE g2 chunks with id := Json.null }) ∧
      (jsTruthyV (runChunks initAcc [] chunks).messageId = true →
        reassembleFromSSE g1 chunks = reassembleFromSSE g2 chunks) := by
  constructor
  · rfl
  · intro h
    simp [reassembleFromSSE, buildResp, h]

theorem reassembleFromSSE_deterministic_witness :
    reassembleFromSSE "gen_one"
        [Except.ok "data: \x7b\"type\":\"message_start\",\"message\":\x7b\"id\":\"msg_w\"\x7d\x7d\n\n"] =
      reassembleFromSSE "gen_two"
        [Except.ok "data: \x7b\"type\":\"message_start\",\"message\":\x7b\"id\":\"msg_w\"\x7d\x7d\n\n"] :=
  (reassembleFromSSE_deterministic
    [Except.ok "data: \x7b\"type\":\"message_start\",\"message\":\x7b\"id\":\"msg_w\"\x7d\x7d\n\n"]
    "gen_one" "gen_two").2 (by rfl)

/-- The stream of claim C4's counterexample: two `message_start` events,
the first with id `a` / model `m1`, the second with id `b` / model `m2`. -/
def twoStartsChunk : String :=
  "event: message_start\ndata: \x7b\"type\":\"message_start\",\"message\":\x7b\"id\":\"a\",\"model\":\"m1\"\x7d\x7d\n\n"
  ++ "event: message_start\ndata: \x7b\"type\":\"message_start\",\"message\":\x7b\"id\":\"b\",\"model\":\"m2\"\x7d\x7d\n\n"

/-- Claim C4 counterexample: for a stream with two `message_start`
events each carrying a non-null id and model, the reassembled response
carries the id and model of the SECOND event, not of the first as the
claim states — `messageId = msg.id ?? messageId` overwrites a
previously-set value whenever the later event's value is non-null. -/
theorem reassembleFromSSE_second_message_start_overwrites_cx :
    (reassembleFromSSE "gen" [Except.ok twoStartsChunk]).id = Json.str "b" ∧
      (reassembleFromSSE "gen" [Except.ok twoStartsChunk]).id ≠ Json.str "a" ∧
      (reassembleFromSSE "gen" [Except.ok twoStartsChunk]).model = Json.str "m2" := by
  refine ⟨rfl, ?_, rfl⟩
  intro h
  rw [show (reassembleFromSSE "gen" [Except.ok twoStartsChunk]).id = Json.str "b" from rfl] at h
  injection h with h2
  exact absurd h2 (by decide)

/-- The `message_start` event payload with the given id and model
values, as `processRawEvent` receives it after JSON parsing. -/
def msgStartJson (i m : Json) : Json :=
  .obj [("type", .str "message_start"), ("message", .obj [("id", i), ("model", m)])]

/-- Claim C4 amended: in the reassembler's state machine the LAST
`message_start` event's non-null id and model win — processing two
`message_start` events that each carry a non-null id and model leaves
the accumulator holding the second event's id and model, from any
starting state (a null or absent value would instead leave the prior
value in place). -/
theorem dispatchEvent_message_start_last_wins (acc : SSEAcc) (id1 m1 id2 m2 : Json)
    (h1 : id1.isNull = false) (h2 : m1.isNull = false)
    (h3 : id2.isNull = false) (h4 : m2.isNull = false) :
    (dispatchEvent "" (msgStartJson id1 m1) acc).bind
        (fun a => dispatchEvent "" (msgStartJson id2 m2) a) =
      some { acc with messageId := id2, model := m2 } := by
  have hobj : ∀ kvs, (Json.obj kvs).isNull = false := fun _ => rfl
  simp [dispatchEvent, msgStartJson, jsGetSafe, lookupKV, nullishD, jsTruthyV,
    h1, h2, h3, h4, hobj]

theorem dispatchEvent_message_start_last_wins_witness :
    (dispatchEvent "" (msgStartJson (.str "a") (.str "m1")) initAcc).bind
        (fun a => dispatchEvent "" (msgStartJson (.str "b") (.str "m2")) a) =
      some { initAcc with messageId := .str "b", model := .str "m2" } :=
  dispatchEvent_message_start_last_wins initAcc (.str "a") (.str "m1") (.str "b") (.str "m2")
    rfl rfl rfl rfl


/-- Concrete stand-ins for the abstract collaborators, used to
instantiate closed statements. -/
def dummyMapResp : Json → AnthropicResponse := fun _ => emptyResponse "unused"

def dummyRenderResp : AnthropicResponse → String := fun _ => ""

def dummyTranscode : UpstreamResp → ResponseM := fun _ => { status := 200, body := none }

/-- The provider label used in thrown upstream-error messages. -/
def providerLabel : Provider → String
  | .anthropic => ""
  | .openrouter => "OpenRouter"
  | .vllm => "vllm"
  | .sglang => "sglang"

/-- The client response the anthropic branch returns for a non-2xx
upstream: the upstream status with the upstream body text, or the
fixed fallback body when that text is empty. -/
def anthErrResp (status : Nat) (t : String) : ResponseM :=
  { status := status, body := some [Except.ok (if t = "" then anthErrFallback else t)] }

/-- The single error audit record the anthropic branch schedules for a
non-2xx upstream. -/
def anthErrLog (status : Nat) (t : String) : ScheduledLog :=
  { response := none, streaming := false,
    error := some (status, (if t = "" then anthErrFallback else t).take 1000) }

/-- Claim C5 counterexample: a non-streaming vllm request whose
upstream answers 500 with a JSON body is NOT propagated as-is — the
worker throws an invalid-request error that surfaces as a 400 with a
translated body, and no audit record at all is scheduled (the claim
expects status 500 and one error record). -/
theorem workerFetch_nonstreaming_upstream_error_not_propagated_cx :
    (workerFetchTop .vllm false ⟨500, some [Except.ok "\x7b\"oops\":1\x7d"]⟩ "gen"
        dummyMapResp dummyRenderResp dummyTranscode).1.status = 400 ∧
      (workerFetchTop .vllm false ⟨500, some [Except.ok "\x7b\"oops\":1\x7d"]⟩ "gen"
        dummyMapResp dummyRenderResp dummyTranscode).2 = [] :=
  ⟨rfl, rfl⟩

/-- Claim C5 amended: upstream non-2xx handling splits by provider.
For the native provider the upstream error response is returned with
the upstream status and body (a fixed fallback body when the upstream
body is empty) and exactly one error audit record (response null, error
populated) is scheduled.  For the OpenAI-compatible providers a
non-streaming non-2xx upstream response is instead turned into a thrown
invalid-request error carrying the upstream status and parsed body in
its detail payload, and no audit record is scheduled. -/
theorem workerFetch_upstream_error_handling :
    (∀ (sf : Bool) (up : UpstreamResp) (genId : String)
        (mapResp : Json → AnthropicResponse) (renderResp : AnthropicResponse → String)
        (transcode : UpstreamResp → ResponseM) (t : String),
        statusOk up.status = false → textOf up.body = Except.ok t →
        workerFetch .anthropic sf up genId mapResp renderResp transcode =
          Except.ok (anthErrResp up.status t, [anthErrLog up.status t])) ∧
      (∀ (p : Provider) (up : UpstreamResp) (genId : String)
        (mapResp : Json → AnthropicResponse) (renderResp : AnthropicResponse → String)
        (transcode : UpstreamResp → ResponseM) (t : String) (j : Json),
        p ≠ .anthropic → statusOk up.status = false →
        textOf up.body = Except.ok t → Json.parse t.data = some j →
        workerFetch p false up genId mapResp renderResp transcode =
          Except.error (.invalidRequest (providerLabel p ++ " error")
            (.obj [("status", .num (up.status : Int)), ("body", j)]))) := by
  constructor
  · intro sf up genId mapResp renderResp transcode t h1 h2
    have hsa : ∀ s : String, "" ++ s = s := fun _ => rfl
    have hpa : proxyAnthropic up = Except.ok (anthErrResp up.status t) := by
      unfold proxyAnthropic anthErrResp
      rw [h2]
      simp [h1]
    unfold workerFetch
    rw [hpa]
    simp [anthErrResp, anthErrLog, h1, textOf, hsa]
  · intro p up genId mapResp renderResp transcode t j hp h1 h2 h3
    cases p with
    | anthropic => exact absurd rfl hp
    | openrouter => simp [workerFetch, handleCompat, providerLabel, h1, h2, h3]
    | vllm => simp [workerFetch, handleCompat, providerLabel, h1, h2, h3]
    | sglang => simp [workerFetch, handleCompat, providerLabel, h1, h2, h3]

theorem workerFetch_upstream_error_handling_witness :
    workerFetch .anthropic false ⟨503, some [Except.ok "upstream broke"]⟩ "gen"
        dummyMapResp dummyRenderResp dummyTranscode =
      Except.ok (anthErrResp 503 "upstream broke", [anthErrLog 503 "upstream broke"]) ∧
      workerFetch .vllm false ⟨500, some [Except.ok "\x7b\"oops\":1\x7d"]⟩ "gen"
        dummyMapResp dummyRenderResp dummyTranscode =
      Except.error (.invalidRequest "vllm error"
        (.obj [("status", .num 500), ("body", .obj [("oops", .num 1)])])) :=
  ⟨workerFetch_upstream_error_handling.1 false ⟨503, some [Except.ok "upstream broke"]⟩
      "gen" dummyMapResp dummyRenderResp dummyTranscode "upstream broke" rfl rfl,
    workerFetch_upstream_error_handling.2 .vllm ⟨500, some [Except.ok "\x7b\"oops\":1\x7d"]⟩
      "gen" dummyMapResp dummyRenderResp dummyTranscode "\x7b\"oops\":1\x7d"
      (.obj [("oops", .num 1)]) (by intro h; exact Provider.noConfusion h) rfl rfl rfl⟩

/-- The reassembly of a stream carrying no complete SSE events: empty
content with a generated message id. -/
def noEventsResp (genId : String) : AnthropicResponse :=
  { id := .str genId, type := "message", role := "assistant", model := .str "",
    stop_reason := none, stop_sequence := .null, content := [], usage := none }

/-- Claim C6 counterexample: a non-streaming request through the native
provider that succeeds (200, plain JSON body) is NOT finalized
immediately with the parsed body — the anthropic branch ignores the
request's streaming flag, tees the body through the SSE reassembler,
and schedules a record with `streaming := true` whose response is the
reassembly of a stream with no events (empty content, generated id),
not the parsed upstream body. -/
theorem workerFetch_anthropic_nonstreaming_logged_as_streaming_cx :
    workerFetch .anthropic false ⟨200, some [Except.ok "\x7b\"id\":\"msg_x\"\x7d"]⟩ "msg_gen"
        dummyMapResp dummyRenderResp dummyTranscode =
      Except.ok (⟨200, some [Except.ok "\x7b\"id\":\"msg_x\"\x7d"]⟩,
        [{ response := some (noEventsResp "msg_gen"), streaming := true, error := none }]) := by
  rfl

/-- Claim C6 amended: non-streaming successes are finalized immediately
with the parsed (translated) response body and `streaming := false` for
the OpenAI-compatible providers only; the native provider handles every
2xx response — streaming requested or not — through the stream
tee/reassembler, scheduling a record with `streaming := true` whose
response is derived by reassembly. -/
theorem workerFetch_nonstreaming_finalization :
    (∀ (p : Provider) (up : UpstreamResp) (genId : String)
        (mapResp : Json → AnthropicResponse) (renderResp : AnthropicResponse → String)
        (transcode : UpstreamResp → ResponseM) (t : String) (j : Json),
        p ≠ .anthropic → statusOk up.status = true →
        textOf up.body = Except.ok t → Json.parse t.data = some j →
        workerFetch p false up genId mapResp renderResp transcode =
          Except.ok (⟨200, some [Except.ok (renderResp (mapResp j))]⟩,
            [{ response := some (mapResp j), streaming := false, error := none }])) ∧
      (∀ (sf : Bool) (up : UpstreamResp) (chunks : List (Except Unit String)) (genId : String)
        (mapResp : Json → AnthropicResponse) (renderResp : AnthropicResponse → String)
        (transcode : UpstreamResp → ResponseM),
        statusOk up.status = true → up.body = some chunks →
        workerFetch .anthropic sf up genId mapResp renderResp transcode =
          Except.ok (⟨up.status, some chunks⟩,
            [{ response := some (reassembleFromSSE genId chunks), streaming := true,
               error := none }])) := by
  constructor
  · intro p up genId mapResp renderResp transcode t j hp h1 h2 h3
    cases p with
    | anthropic => exact absurd rfl hp
    | openrouter => simp [workerFetch, handleCompat, h1, h2, h3]
    | vllm => simp [workerFetch, handleCompat, h1, h2, h3]
    | sglang => simp [workerFetch, handleCompat, h1, h2, h3]
  · intro sf up chunks genId mapResp renderResp transcode h1 h2
    simp [workerFetch, proxyAnthropic, teeAndCollectStream, h1, h2]

theorem workerFetch_nonstreaming_finalization_witness :
    workerFetch .sglang false ⟨200, some [Except.ok "\x7b\"ok\":true\x7d"]⟩ "gen"
        dummyMapResp dummyRenderResp dummyTranscode =
      Except.ok (⟨200, some [Except.ok (dummyRenderResp (dummyMapResp (.obj [("ok", .bool true)])))]⟩,
        [{ response := some (dummyMapResp (.obj [("ok", .bool true)])), streaming := false,
           error := none }]) ∧
      workerFetch .anthropic false ⟨201, some [Except.ok "data: x\n\n"]⟩ "gen"
        dummyMapResp dummyRenderResp dummyTranscode =
      Except.ok (⟨201, some [Except.ok "data: x\n\n"]⟩,
        [{ response := some (reassembleFromSSE "gen" [Except.ok "data: x\n\n"]),
           streaming := true, error := none }]) :=
  ⟨workerFetch_nonstreaming_finalization.1 .sglang ⟨200, some [Except.ok "\x7b\"ok\":true\x7d"]⟩
      "gen" dummyMapResp dummyRenderResp dummyTranscode "\x7b\"ok\":true\x7d"
      (.obj [("ok", .bool true)]) (by intro h; exact Provider.noConfusion h) rfl rfl rfl,
    workerFetch_nonstreaming_finalization.2 false ⟨201, some [Except.ok "data: x\n\n"]⟩
      [Except.ok "data: x\n\n"] "gen" dummyMapResp dummyRenderResp dummyTranscode rfl rfl⟩
